/-
  Verification of the TrustScore fraud/reputation analytics core.

  Shallow embedding of the scoring and detection functions of the repository
  (src/fraud/detector.js, src/reputation/service-scorer.js,
  src/reputation/trust-matcher.js, src/indexer ingestion) into Lean 4.
  JavaScript numbers are idealized as exact rationals (ℚ); integer-valued
  quantities are ℕ/ℤ; `Math.floor` is `Int.floor`, `Math.round` is
  `⌊q + 1/2⌋` (JS rounds half toward +∞); `Math.max/min` are `max`/`min`.
-/
import Mathlib

namespace TrustScore

/-- A stored payment event (table `transactions`): hash key, payer, payee,
amount (USDC, decimal), and block timestamp in seconds.  Fields not read by
any scoring function (block number, nonce, validity window, facilitator) are
omitted. -/
structure Tx where
  tx_hash : String
  from_address : String
  to_address : String
  amount : ℚ
  timestamp : ℤ
  deriving DecidableEq, Repr

/-- A persisted fraud flag: severity 1–10 and resolution state
(`is_resolved`); `flagType`/`details` are not read by the scoring code. -/
structure FraudFlag where
  severity : ℕ
  isResolved : Bool
  deriving DecidableEq, Repr

/-- The four-level risk classification used by the fraud engine. -/
inductive RiskLevel where
  | low | medium | high | critical
  deriving DecidableEq, Repr

/-- The five-tier trust classification used by the reputation scorer. -/
inductive TrustLevel where
  | excellent | high | medium | low | untrusted
  deriving DecidableEq, Repr

/-- Badges assigned by the reputation scorer (src/utils/constants.js). -/
inductive Badge where
  | VERIFIED | TRUSTED | ESTABLISHED | HIGH_VOLUME | CLEAN | NEW
  deriving DecidableEq, Repr

/-- JavaScript `Math.round`: round half toward +∞. -/
def jsRound (q : ℚ) : ℤ := ⌊q + 1/2⌋

/-- `getFraudFlags(address, false)`: the currently-unresolved flags of an
address, given the full stored flag list for that address. -/
def activeFlags (flags : List FraudFlag) : List FraudFlag :=
  flags.filter (fun f => !f.isResolved)

/-- Result shape of `getFraudScore` (src/fraud/detector.js). -/
structure FraudScoreResult where
  score : ℤ
  riskLevel : RiskLevel
  activeCount : ℕ
  deriving DecidableEq, Repr

/-- `getFraudScore` (src/fraud/detector.js, lines 319–350): reads the
address's unresolved flags; with none, returns score 100 / low; otherwise
`score = max(0, 100 - Σ severity·10)` with thresholds
score<30 → critical, <50 → high, <70 → medium, else low. -/
def getFraudScore (flags : List FraudFlag) : FraudScoreResult :=
  let active := activeFlags flags
  if active.length = 0 then
    { score := 100, riskLevel := .low, activeCount := 0 }
  else
    let totalPenalty : ℤ := active.foldl (fun s f => s + (f.severity : ℤ) * 10) 0
    let score : ℤ := max 0 (100 - totalPenalty)
    let riskLevel : RiskLevel :=
      if score < 30 then .critical
      else if score < 50 then .high
      else if score < 70 then .medium
      else .low
    { score := score, riskLevel := riskLevel, activeCount := active.length }

/-- The sum-of-penalties view used to state the fraud-score formula. -/
def severityPenalty (flags : List FraudFlag) : ℤ :=
  ((activeFlags flags).map (fun f => (f.severity : ℤ) * 10)).sum

/-! ## Reputation scorer (src/reputation/service-scorer.js) -/

namespace config

/-- `config.reputation.defaultScore` (src/config/config.js, the second
document bundled in src/src/api/validators/address.js):
`defaultScore: 50`, the neutral score returned for an address with no
transactions. -/
def defaultScore : ℤ := 50

/-- `config.reputation.minScore` (src/config/config.js): `minScore: 0`,
the lower clamp bound of the reputation score. -/
def minScore : ℤ := 0

/-- `config.reputation.maxScore` (src/config/config.js): `maxScore: 100`,
the upper clamp bound of the reputation score. -/
def maxScore : ℤ := 100

end config

/-- SQL `MIN(timestamp)` over the address's transactions (0 on the empty
list, where the scorer never reads it). -/
def minTs : List Tx → ℤ
  | [] => 0
  | [t] => t.timestamp
  | t :: ts => min t.timestamp (minTs ts)

/-- SQL `MAX(timestamp)` over the address's transactions (0 on the empty
list, where the scorer never reads it). -/
def maxTs : List Tx → ℤ
  | [] => 0
  | [t] => t.timestamp
  | t :: ts => max t.timestamp (maxTs ts)

/-- SQL `SUM(amount)` over the address's transactions. -/
def sumVolume (txs : List Tx) : ℚ := (txs.map (·.amount)).sum

/-- SQL `COUNT(DISTINCT from_address)` over the address's transactions. -/
def uniquePayersCount (txs : List Tx) : ℕ :=
  (txs.map (·.from_address)).dedup.length

/-- Recent-activity component (0–10 points): full 10 within 7 days of last
activity, 5 within 30, 0 beyond. -/
def activityScore (daysSince : ℚ) : ℚ :=
  if daysSince < 7 then 10 else if daysSince < 30 then 5 else 0

/-- Fraud penalty: `Math.floor(severity * 3)` per active flag, which on
the integer severities equals `3·severity` exactly. -/
def fraudPenalty (fraud : List FraudFlag) : ℚ :=
  (fraud.map (fun f => ((f.severity * 3 : ℕ) : ℚ))).sum

/-- The scorer's running total before clamping/rounding: the five capped
components minus the fraud penalties (service-scorer.js lines 54–82). -/
def rawScore (count : ℕ) (volume : ℚ) (payers : ℕ)
    (ageDays daysSince : ℚ) (fraud : List FraudFlag) : ℚ :=
  min 30 (((count : ℚ) / 100) * 30)
    + min 20 ((volume / 1000) * 20)
    + min 15 (((payers : ℚ) / 50) * 15)
    + min 15 ((ageDays / 90) * 15)
    + activityScore daysSince
    - fraudPenalty fraud

/-- `Math.max(minScore, Math.min(maxScore, Math.round(score)))`. -/
def clampRound (q : ℚ) : ℤ :=
  max config.minScore (min config.maxScore (jsRound q))

/-- The reputation score of a nonempty transaction history. -/
def scoreOf (txs : List Tx) (flags : List FraudFlag) (now : ℤ) : ℤ :=
  clampRound (rawScore txs.length (sumVolume txs) (uniquePayersCount txs)
    (((now - minTs txs : ℤ) : ℚ) / 86400)
    (((now - maxTs txs : ℤ) : ℚ) / 86400)
    (activeFlags flags))

/-- Materialized reputation snapshot.  The source also records the address
and rounds `totalVolume` to two decimals for display; neither is read by
any claim. -/
structure Reputation where
  reputationScore : ℤ
  trustLevel : TrustLevel
  badges : List Badge
  totalTransactions : ℕ
  totalVolume : ℚ
  uniquePayers : ℕ
  accountAgeDays : ℤ
  daysSinceLastActive : Option ℤ
  activeFraudFlags : ℕ
  deriving DecidableEq, Repr

/-- `calculateServiceReputation` (src/reputation/service-scorer.js):
takes the address's transactions (as recipient), its stored fraud flags,
and the current time; zero transactions yield the fixed neutral default,
otherwise the five-component score with fraud penalties, clamped to
[0,100] and rounded, plus trust tier and badges. -/
def calculateServiceReputation (txs : List Tx) (flags : List FraudFlag)
    (now : ℤ) : Reputation :=
  if txs.length = 0 then
    { reputationScore := config.defaultScore, trustLevel := .medium,
      badges := [.NEW], totalTransactions := 0, totalVolume := 0,
      uniquePayers := 0, accountAgeDays := 0, daysSinceLastActive := none,
      activeFraudFlags := 0 }
  else
    let accountAgeDays : ℚ := ((now - minTs txs : ℤ) : ℚ) / 86400
    let daysSince : ℚ := ((now - maxTs txs : ℤ) : ℚ) / 86400
    let fraud := activeFlags flags
    let score := scoreOf txs flags now
    let trustLevel : TrustLevel :=
      if 85 ≤ score then .excellent
      else if 70 ≤ score then .high
      else if 50 ≤ score then .medium
      else if 30 ≤ score then .low
      else .untrusted
    let badges : List Badge :=
      (if 85 ≤ score then [.VERIFIED] else [])
        ++ (if 70 ≤ score then [.TRUSTED] else [])
        ++ (if 90 ≤ accountAgeDays then [.ESTABLISHED] else [])
        ++ (if 1000 ≤ txs.length then [.HIGH_VOLUME] else [])
        ++ (if fraud.length = 0 ∧ 30 ≤ accountAgeDays then [.CLEAN] else [])
        ++ (if accountAgeDays < 7 then [.NEW] else [])
    { reputationScore := score, trustLevel := trustLevel, badges := badges,
      totalTransactions := txs.length, totalVolume := sumVolume txs,
      uniquePayers := uniquePayersCount txs,
      accountAgeDays := ⌊accountAgeDays⌋,
      daysSinceLastActive := some ⌊daysSince⌋,
      activeFraudFlags := fraud.length }

/-! ## Trust compatibility matcher (src/reputation/trust-matcher.js) -/

/-- Result of `checkTrustCompatibility` (compatibility block): the rounded
score, the go/no-go recommendation and the risk level.  The source also
echoes both reputations and warning strings, which no claim reads. -/
structure CompatResult where
  score : ℤ
  recommended : Bool
  riskLevel : RiskLevel
  deriving DecidableEq, Repr

/-- The clamped (pre-rounding) compatibility score
(trust-matcher.js lines 31–40): the mean of the two reputation scores,
minus 10 when they differ by more than 30, minus 20 when the service has
any active fraud flag, clamped to [0,100]. -/
def compatibilityQ (serviceScore agentScore : ℤ)
    (serviceFraud : List FraudFlag) : ℚ :=
  let avgScore : ℚ := ((serviceScore : ℚ) + (agentScore : ℚ)) / 2
  let scoreDiff : ℤ := |serviceScore - agentScore|
  let c1 : ℚ := if 30 < scoreDiff then avgScore - 10 else avgScore
  let c2 : ℚ := if (activeFlags serviceFraud).isEmpty = false then c1 - 20 else c1
  max 0 (min 100 c2)

/-- `checkTrustCompatibility` (src/reputation/trust-matcher.js), as a
function of the two loaded reputation scores and the service's stored
fraud-flag list (the code loads these through the storage contract). -/
def checkTrustCompatibility (serviceScore agentScore : ℤ)
    (serviceFraud : List FraudFlag) : CompatResult :=
  let hasFraudFlags : Bool := !(activeFlags serviceFraud).isEmpty
  let compatibility := compatibilityQ serviceScore agentScore serviceFraud
  { score := jsRound compatibility,
    recommended := decide (60 ≤ compatibility) && !hasFraudFlags,
    riskLevel :=
      if compatibility < 40 ∨ hasFraudFlags = true then .high
      else if compatibility < 60 then .medium
      else .low }

/-! ## Ingestion (enhanced-indexer.js → db/queries.js saveTransaction) -/

/-- Modelled from the spec: `saveTransaction` lives in `src/db/queries.js`,
which is absent from src/ (src/indexer/enhanced-indexer.js line 236 is its
caller).  Spec §4.6/§8: deduplication by transaction hash with
insert-or-ignore semantics — a replayed hash must not create a duplicate
row. -/
def saveTransaction (store : List Tx) (tx : Tx) : List Tx :=
  if store.any (fun t => t.tx_hash = tx.tx_hash) then store else store ++ [tx]

/-- Recipient-indexed query `getTransactionsTo(address)` over the store. -/
def txsTo (store : List Tx) (addr : String) : List Tx :=
  store.filter (fun t => t.to_address = addr)

/-! ## Fraud aggregator (src/fraud/detector.js checkServiceForFraud) -/

/-- A basic-rule result: the rule's flag type, severity, and whether the
condition fired (`detected`). -/
structure Finding where
  ftype : String
  severity : ℤ
  detected : Bool
  deriving DecidableEq, Repr

/-- `checkServiceForFraud` (src/fraud/detector.js lines 275–312), embedded
over the outcomes of its five rule calls and of the per-flag persistence
side effect (`saveFraudFlag` plus the awaited webhook dispatch).  The JS
evaluates the five calls in sequence while building `checks`, then loops
over the results, persisting and alerting each detected finding; there is
no try/catch anywhere in the function, so an exception at any point
propagates — which the `Except` bind mirrors. -/
def checkServiceForFraud (checks : List (Except String Finding))
    (save : Finding → Except String Unit) : Except String (List Finding) := do
  let results ← checks.mapM id
  results.foldlM (fun detectedFraud check =>
    if check.detected then do
      let acc := detectedFraud ++ [check]
      save check
      pure acc
    else
      pure detectedFraud) []

/-! ## Basic fraud rules (src/fraud/rules.js, modelled from the spec) -/

/-- Modelled from the spec: `src/fraud/rules.js` is absent from src/ (its
callers — detector.js — and unit tests remain).  Spec §4.1 detector 1:
count transactions in the trailing 1-hour window; fires above the default
limit 50; the basic rule reports the fixed severity 8 (spec §8 and
tests/unit/fraud-rules.test.js). -/
def checkVelocityAbuse (txs : List Tx) (now : ℤ) : Finding :=
  { ftype := "velocity_abuse", severity := 8,
    detected := decide (50 < (txs.filter (fun t => now - 3600 < t.timestamp)).length) }

/-- Modelled from the spec: detector 2 — fires when the account is younger
than 7 days and its volume exceeds 100; not fireable on an empty history;
severity 7 per the unit tests. -/
def checkNewWalletRisk (txs : List Tx) (now : ℤ) : Finding :=
  { ftype := "new_wallet_risk", severity := 7,
    detected := !txs.isEmpty
      && decide (((now - minTs txs : ℤ) : ℚ) / 86400 < 7)
      && decide (100 < sumVolume txs) }

/-- The transactions of one payer to the subject address. -/
def payerTxs (txs : List Tx) (payer : String) : List Tx :=
  txs.filter (fun t => t.from_address = payer)

/-- Modelled from the spec: detector 3 (wash trading / circular flow) —
group transactions by payer; fires for any payer with at least the
configured repeat count (default 10, README `circularFlowMinCount`) and
exactly one distinct amount across all of that payer's payments; severity
9 per the unit tests. -/
def checkCircularFlow (txs : List Tx) : Finding :=
  { ftype := "wash_trading", severity := 9,
    detected := txs.any (fun t =>
      decide (10 ≤ (payerTxs txs t.from_address).length)
        && decide (((payerTxs txs t.from_address).map (·.amount)).dedup.length = 1)) }

/-- Calendar-day bucket `Math.floor(timestamp / 86400)`. -/
def dayOf (t : Tx) : ℤ := ⌊(t.timestamp : ℚ) / 86400⌋

/-- Ascending insertion into a sorted list of day keys. -/
def insertAsc (x : ℤ) : List ℤ → List ℤ
  | [] => [x]
  | y :: ys => if x ≤ y then x :: y :: ys else y :: insertAsc x ys

/-- Ascending sort of day keys: JS object keys that are canonical numeric
strings are iterated in ascending numeric order, so `Object.values` of the
day-bucket map lists days ascending. -/
def sortAsc (l : List ℤ) : List ℤ := l.foldr insertAsc []

/-- The distinct day buckets of a transaction set, ascending. -/
def dayKeys (txs : List Tx) : List ℤ := sortAsc (txs.map dayOf).dedup

/-- Total amount transacted on one day bucket. -/
def dailyVolume (txs : List Tx) (d : ℤ) : ℚ :=
  ((txs.filter (fun t => dayOf t = d)).map (·.amount)).sum

/-- Modelled from the spec: detector 4 (volume spike) — requires at least
8 bucketed days; compares the most recent day's volume against the mean
of the other days with the default multiplier 10; severity 6 per the unit
tests. -/
def checkVolumeSpike (txs : List Tx) : Finding :=
  let volumeValues := (dayKeys txs).map (dailyVolume txs)
  { ftype := "volume_spike", severity := 6,
    detected := decide (7 < volumeValues.length)
      && decide (10 * (volumeValues.dropLast.sum / ((volumeValues.length - 1 : ℕ) : ℚ))
          < volumeValues.getLastD 0) }

/-- Modelled from the spec: detector 5 (retry spam) — within the trailing
5-minute window, fires when any single payer has more than 10
transactions below the 0.10 micro-threshold; severity 5 per the unit
tests. -/
def checkRetrySpam (txs : List Tx) (now : ℤ) : Finding :=
  let small := txs.filter (fun t => decide (now - 300 < t.timestamp) && decide (t.amount < 1/10))
  { ftype := "retry_spam", severity := 5,
    detected := small.any (fun t =>
      decide (10 < (small.filter (fun u => u.from_address = t.from_address)).length)) }

/-! ## Extended pattern analyzer (src/fraud/detector.js analyzeFraudPatterns) -/

/-- The seven pattern kinds of the extended analyzer. -/
inductive PatternType where
  | VELOCITY_ABUSE | IDENTICAL_AMOUNTS | LOW_PAYER_DIVERSITY | NEW_WALLET_RISK
  | VOLUME_SPIKE | WASH_TRADING | TIME_CLUSTERING
  deriving DecidableEq, Repr

/-- An emitted pattern: its kind and severity.  The source also attaches
description and evidence strings, which no claim reads. -/
structure PatternEntry where
  ptype : PatternType
  severity : ℤ
  deriving DecidableEq, Repr

/-- Pattern 1 (detector.js lines 35–50): more than 50 transactions with
timestamp strictly inside the trailing hour; severity
`min(10, ⌊count/10⌋)`. -/
def velocityPattern (txs : List Tx) (now : ℤ) : Option PatternEntry :=
  let recent := txs.filter (fun t => now - 3600 < t.timestamp)
  if 50 < recent.length then
    some ⟨.VELOCITY_ABUSE, min 10 ((recent.length : ℤ) / 10)⟩
  else none

/-- Pattern 2 (lines 52–68): a single distinct amount across more than 10
transactions; severity `min(10, ⌊count/20⌋)`. -/
def identicalAmountsPattern (txs : List Tx) : Option PatternEntry :=
  if ((txs.map (·.amount)).dedup.length = 1 ∧ 10 < txs.length) then
    some ⟨.IDENTICAL_AMOUNTS, min 10 ((txs.length : ℤ) / 20)⟩
  else none

/-- Pattern 3 (lines 70–87): payer-diversity ratio below 0.1 over more
than 20 transactions; severity `min(10, ⌊(1 − ratio)·15⌋)`. -/
def lowPayerDiversityPattern (txs : List Tx) : Option PatternEntry :=
  let ratio : ℚ := ((txs.map (·.from_address)).dedup.length : ℚ) / (txs.length : ℚ)
  if ratio < 1/10 ∧ 20 < txs.length then
    some ⟨.LOW_PAYER_DIVERSITY, min 10 ⌊(1 - ratio) * 15⌋⟩
  else none

/-- Pattern 4 (lines 89–108): account younger than 7 days (from the last
list element, the oldest in the store's descending order) with volume
above 100; severity `min(10, ⌊(100 − age·10) + volume/100⌋)`. -/
def newWalletPattern (txs : List Tx) (now : ℤ) : Option PatternEntry :=
  let oldest := txs.getLastD ⟨"", "", "", 0, 0⟩
  let accountAgeDays : ℚ := ((now - oldest.timestamp : ℤ) : ℚ) / 86400
  if accountAgeDays < 7 ∧ 100 < sumVolume txs then
    some ⟨.NEW_WALLET_RISK, min 10 ⌊(100 - accountAgeDays * 10) + sumVolume txs / 100⌋⟩
  else none

/-- Pattern 5 (lines 110–138): with more than 7 day buckets, compares the
latest day's volume to the mean of the earlier days; the JS quotient
`latest/avg` is > 5, embedded with its IEEE edge case `avg = 0` made
explicit (`x/0` is `±∞`, `0/0` is NaN, so the test holds iff `0 < latest`);
severity `min(10, ⌊multiplier/2⌋)`, which is 10 in the infinite case. -/
def volumeSpikePattern (txs : List Tx) : Option PatternEntry :=
  let volumeValues := (dayKeys txs).map (dailyVolume txs)
  if 7 < volumeValues.length then
    let avgVolume := volumeValues.dropLast.sum / ((volumeValues.length - 1 : ℕ) : ℚ)
    let latest := volumeValues.getLastD 0
    if (if avgVolume = 0 then 0 < latest else 5 < latest / avgVolume) then
      some ⟨.VOLUME_SPIKE,
        if avgVolume = 0 then 10 else min 10 ⌊(latest / avgVolume) / 2⌋⟩
    else none
  else none

/-- First-occurrence order of payers (JS object-key insertion order). -/
def payersInOrder (txs : List Tx) : List String :=
  txs.foldl (fun acc t =>
    if t.from_address ∈ acc then acc else acc ++ [t.from_address]) []

/-- Stable descending insertion by transaction count (JS
`sort((a,b) => b[1] - a[1])` is stable, ties keep insertion order). -/
def insertByCountDesc (cnt : String → ℕ) (x : String) :
    List String → List String
  | [] => [x]
  | y :: ys => if cnt y < cnt x then x :: y :: ys else y :: insertByCountDesc cnt x ys

/-- Stable descending sort of payers by transaction count. -/
def sortByCountDesc (cnt : String → ℕ) : List String → List String
  | [] => []
  | x :: xs => insertByCountDesc cnt x (sortByCountDesc cnt xs)

/-- The top (up to) three payers by transaction count (lines 141–148). -/
def topPayers (txs : List Tx) : List String :=
  (sortByCountDesc (fun p => (payerTxs txs p).length) (payersInOrder txs)).take 3

/-- Pattern 6 (lines 140–178): the top-3 payers' share of total volume
above 0.8 over more than 20 transactions; the JS quotient's `total = 0`
edge case is made explicit as in pattern 5; severity
`min(10, ⌊ratio·12⌋)`, 10 in the infinite case. -/
def washTradingPattern (txs : List Tx) : Option PatternEntry :=
  let topPayerVolume := ((topPayers txs).map
    (fun p => ((payerTxs txs p).map (·.amount)).sum)).sum
  let totalVol := sumVolume txs
  if (if totalVol = 0 then 0 < topPayerVolume
      else 4/5 < topPayerVolume / totalVol) ∧ 20 < txs.length then
    some ⟨.WASH_TRADING,
      if totalVol = 0 then 10 else min 10 ⌊(topPayerVolume / totalVol) * 12⌋⟩
  else none

/-- Consecutive inter-transaction intervals over the first
`min(length, 20)` list entries (lines 182–185). -/
def intervals (txs : List Tx) : List ℤ :=
  List.zipWith (fun a b => a.timestamp - b.timestamp) (txs.take 20) (txs.take 20).tail

/-- Pattern 7 (lines 180–207): over more than 10 transactions, mean and
population variance of the intervals; fires when the coefficient of
variation `√variance / mean` is below 0.2 and the mean below 300 s.  The
square root is eliminated exactly: for `mean > 0` the test is
`25·variance < mean²`; for `mean < 0` the quotient is ≤ 0 and the test
holds; for `mean = 0` it is NaN/∞ and fails.  The source severity
`min(10, ⌊(1 − cv)·15⌋)` is computed only in the firing branch, where
`cv < 1/5` forces `⌊(1 − cv)·15⌋ ≥ 12`, so the pushed severity is
identically 10. -/
def timeClusteringPattern (txs : List Tx) : Option PatternEntry :=
  if 10 < txs.length then
    let ivs := intervals txs
    let n : ℚ := (ivs.length : ℚ)
    let avgInterval : ℚ := ((ivs.map (fun i => (i : ℚ))).sum) / n
    let variance : ℚ := ((ivs.map (fun i => ((i : ℚ) - avgInterval) ^ 2)).sum) / n
    if (avgInterval < 0 ∨ (0 < avgInterval ∧ 25 * variance < avgInterval ^ 2))
        ∧ avgInterval < 300 then
      some ⟨.TIME_CLUSTERING, 10⟩
    else none
  else none

/-- Stable descending insertion by severity (JS
`patterns.sort((a,b) => b.severity - a.severity)` is stable). -/
def insertBySevDesc (x : PatternEntry) :
    List PatternEntry → List PatternEntry
  | [] => [x]
  | y :: ys => if y.severity < x.severity then x :: y :: ys else y :: insertBySevDesc x ys

/-- Stable descending sort of patterns by severity. -/
def sortBySevDesc : List PatternEntry → List PatternEntry
  | [] => []
  | x :: xs => insertBySevDesc x (sortBySevDesc xs)

/-- Result of `analyzeFraudPatterns`: the detected patterns (severity
descending) and the summary risk tier.  The echoed metrics
(totalTransactions, totalVolume, uniquePayers, account age,
recommendation string) are not read by any claim. -/
structure AnalysisResult where
  patterns : List PatternEntry
  totalPatterns : ℕ
  riskLevel : RiskLevel
  deriving DecidableEq, Repr

/-- `analyzeFraudPatterns` (src/fraud/detector.js lines 13–249): empty
history returns the early no-patterns/low-risk result; otherwise the
seven pattern checks run in source order, the risk tier is derived from
the maximum severity (≥8 critical, ≥6 high, ≥4 medium, else low), and the
patterns are sorted by severity descending. -/
def analyzeFraudPatterns (txs : List Tx) (now : ℤ) : AnalysisResult :=
  if txs.length = 0 then
    { patterns := [], totalPatterns := 0, riskLevel := .low }
  else
    let patterns := [velocityPattern txs now, identicalAmountsPattern txs,
      lowPayerDiversityPattern txs, newWalletPattern txs now,
      volumeSpikePattern txs, washTradingPattern txs,
      timeClusteringPattern txs].filterMap id
    let maxSeverity : ℤ := (patterns.map (·.severity)).foldl max 0
    { patterns := sortBySevDesc patterns,
      totalPatterns := patterns.length,
      riskLevel :=
        if 8 ≤ maxSeverity then .critical
        else if 6 ≤ maxSeverity then .high
        else if 4 ≤ maxSeverity then .medium
        else .low }

/-- The wash-trading scenario of spec §8: 150 payments to one service from
exactly 3 payers, every payment exactly 10.00. -/
def washScenario : List Tx :=
  List.replicate 50 ⟨"", "payer1", "svc", 10, 0⟩
    ++ List.replicate 50 ⟨"", "payer2", "svc", 10, 0⟩
    ++ List.replicate 50 ⟨"", "payer3", "svc", 10, 0⟩

/-! ## Theorems -/

theorem getFraudScore_foldl_eq (l : List FraudFlag) (z : ℤ) :
    l.foldl (fun s f => s + (f.severity : ℤ) * 10) z
      = z + (l.map (fun f => (f.severity : ℤ) * 10)).sum := by
  induction l generalizing z with
  | nil => simp
  | cons a l ih => simp [ih]; ring

theorem severityPenalty_nonneg (flags : List FraudFlag) :
    0 ≤ severityPenalty flags := by
  apply List.sum_nonneg
  intro x hx
  simp only [severityPenalty, List.mem_map] at hx
  obtain ⟨f, _, rfl⟩ := hx
  positivity

/-- C1: `getFraudScore` reads only unresolved flags and returns
`score = clamp(0, 100, 100 - Σ severity·10)`; with no active flags it
returns score 100 / riskLevel low; riskLevel is critical below 30, high
below 50, medium below 70, else low; severities [8,5] give score 0 and
riskLevel critical. -/
theorem getFraudScore_spec :
    (∀ flags : List FraudFlag,
      (getFraudScore flags).score = max 0 (min 100 (100 - severityPenalty flags)) ∧
      (activeFlags flags = [] →
        getFraudScore flags = { score := 100, riskLevel := .low, activeCount := 0 }) ∧
      (getFraudScore flags).riskLevel =
        (if (getFraudScore flags).score < 30 then RiskLevel.critical
         else if (getFraudScore flags).score < 50 then RiskLevel.high
         else if (getFraudScore flags).score < 70 then RiskLevel.medium
         else RiskLevel.low)) ∧
    getFraudScore [⟨8, false⟩, ⟨5, false⟩]
      = { score := 0, riskLevel := .critical, activeCount := 2 } := by
  constructor
  · intro flags
    have hpen : 0 ≤ severityPenalty flags := severityPenalty_nonneg flags
    by_cases h : activeFlags flags = []
    · have hp0 : severityPenalty flags = 0 := by
        simp [severityPenalty, h]
      refine ⟨?_, fun _ => ?_, ?_⟩ <;>
        simp [getFraudScore, h, hp0]
    · have hlen : ¬ (activeFlags flags).length = 0 := by
        simpa [List.length_eq_zero] using h
      have hfold : (activeFlags flags).foldl (fun s f => s + (f.severity : ℤ) * 10) 0
          = severityPenalty flags := by
        simpa [severityPenalty] using getFraudScore_foldl_eq (activeFlags flags) 0
      refine ⟨?_, fun h' => absurd h' h, ?_⟩
      · simp only [getFraudScore, hlen, if_false, hfold]
        have : min 100 (100 - severityPenalty flags) = 100 - severityPenalty flags := by
          omega
        rw [this]
      · simp only [getFraudScore, hlen, if_false]
  · decide

/-- Closed witness for the hypothesised conjunct of `getFraudScore_spec`:
an address with an empty flag list gets score 100 and risk low. -/
theorem getFraudScore_spec_witness :
    activeFlags [] = [] ∧
    getFraudScore ([] : List FraudFlag)
      = { score := 100, riskLevel := .low, activeCount := 0 } :=
  ⟨rfl, (getFraudScore_spec.1 []).2.1 rfl⟩

/-- C2: an address with zero transactions as recipient gets the fixed
neutral default — score exactly 50, trust level medium, badges exactly
[NEW] — whatever its flag list and the current time. -/
theorem calculateServiceReputation_empty (flags : List FraudFlag) (now : ℤ) :
    (calculateServiceReputation [] flags now).reputationScore = 50 ∧
    (calculateServiceReputation [] flags now).trustLevel = .medium ∧
    (calculateServiceReputation [] flags now).badges = [.NEW] := by
  refine ⟨rfl, rfl, rfl⟩

theorem activityScore_antitone {d d' : ℚ} (h : d' ≤ d) :
    activityScore d ≤ activityScore d' := by
  unfold activityScore
  split_ifs <;> linarith

theorem fraudPenalty_nonneg (fraud : List FraudFlag) : 0 ≤ fraudPenalty fraud := by
  apply List.sum_nonneg
  intro x hx
  simp only [fraudPenalty, List.mem_map] at hx
  obtain ⟨f, _, rfl⟩ := hx
  positivity

theorem fraudPenalty_le_cons (f : FraudFlag) (fraud : List FraudFlag) :
    fraudPenalty fraud ≤ fraudPenalty (f :: fraud) := by
  simp only [fraudPenalty, List.map_cons, List.sum_cons]
  have : (0 : ℚ) ≤ ((f.severity * 3 : ℕ) : ℚ) := by positivity
  linarith

theorem clampRound_mono {q q' : ℚ} (h : q ≤ q') : clampRound q ≤ clampRound q' := by
  unfold clampRound jsRound
  exact max_le_max le_rfl
    (min_le_min le_rfl (Int.floor_le_floor (by linarith)))

theorem rawScore_mono {c c' : ℕ} {v v' : ℚ} {p p' : ℕ} {a a' d d' : ℚ}
    {fl fl' : List FraudFlag}
    (hc : c ≤ c') (hv : v ≤ v') (hp : p ≤ p') (ha : a ≤ a') (hd : d' ≤ d)
    (hfl : fraudPenalty fl' ≤ fraudPenalty fl) :
    rawScore c v p a d fl ≤ rawScore c' v' p' a' d' fl' := by
  unfold rawScore
  have h1 : min (30:ℚ) (((c : ℚ) / 100) * 30) ≤ min 30 (((c' : ℚ) / 100) * 30) := by
    apply min_le_min le_rfl
    have : (c : ℚ) ≤ (c' : ℚ) := by exact_mod_cast hc
    linarith
  have h2 : min (20:ℚ) ((v / 1000) * 20) ≤ min 20 ((v' / 1000) * 20) := by
    apply min_le_min le_rfl
    linarith
  have h3 : min (15:ℚ) (((p : ℚ) / 50) * 15) ≤ min 15 (((p' : ℚ) / 50) * 15) := by
    apply min_le_min le_rfl
    have : (p : ℚ) ≤ (p' : ℚ) := by exact_mod_cast hp
    linarith
  have h4 : min (15:ℚ) ((a / 90) * 15) ≤ min 15 ((a' / 90) * 15) := by
    apply min_le_min le_rfl
    linarith
  have h5 := activityScore_antitone hd
  linarith

theorem uniquePayersCount_le_cons (tx : Tx) (txs : List Tx) :
    uniquePayersCount txs ≤ uniquePayersCount (tx :: txs) := by
  unfold uniquePayersCount
  simp only [List.map_cons]
  by_cases h : tx.from_address ∈ txs.map (·.from_address)
  · rw [List.dedup_cons_of_mem h]
  · rw [List.dedup_cons_of_not_mem h]
    exact Nat.le_succ _

theorem minTs_cons_le (tx : Tx) (txs : List Tx) (h : txs ≠ []) :
    minTs (tx :: txs) ≤ minTs txs := by
  cases txs with
  | nil => exact absurd rfl h
  | cons t ts => exact min_le_right _ _

theorem maxTs_le_cons (tx : Tx) (txs : List Tx) (h : txs ≠ []) :
    maxTs txs ≤ maxTs (tx :: txs) := by
  cases txs with
  | nil => exact absurd rfl h
  | cons t ts => exact le_max_right _ _

theorem fraudPenalty_activeFlags_cons (f : FraudFlag) (flags : List FraudFlag) :
    fraudPenalty (activeFlags flags) ≤ fraudPenalty (activeFlags (f :: flags)) := by
  unfold activeFlags
  rw [List.filter_cons]
  by_cases h : f.isResolved
  · simp [h]
  · simp only [h]
    simpa using fraudPenalty_le_cons f (flags.filter fun f => !f.isResolved)

theorem scoreOf_le_cons_tx (txs : List Tx) (tx : Tx) (flags : List FraudFlag)
    (now : ℤ) (hne : txs ≠ []) (hamt : 0 ≤ tx.amount) :
    scoreOf txs flags now ≤ scoreOf (tx :: txs) flags now := by
  unfold scoreOf
  apply clampRound_mono
  apply rawScore_mono
  · simp [Nat.le_succ]
  · simp only [sumVolume, List.map_cons, List.sum_cons]
    linarith
  · exact uniquePayersCount_le_cons tx txs
  · have hm := minTs_cons_le tx txs hne
    rw [div_le_div_iff_of_pos_right (by norm_num : (0:ℚ) < 86400)]
    have : (minTs (tx :: txs) : ℚ) ≤ (minTs txs : ℚ) := by exact_mod_cast hm
    push_cast
    linarith
  · have hm := maxTs_le_cons tx txs hne
    rw [div_le_div_iff_of_pos_right (by norm_num : (0:ℚ) < 86400)]
    have : (maxTs txs : ℚ) ≤ (maxTs (tx :: txs) : ℚ) := by exact_mod_cast hm
    push_cast
    linarith
  · exact le_rfl

/-- C5 (amended): on a **nonempty** history, adding a transaction (with
the data model's non-negative amount) never decreases the reputation
score, and adding a fraud flag never increases it (any history). -/
theorem serviceReputation_monotone :
    (∀ (txs : List Tx) (tx : Tx) (flags : List FraudFlag) (now : ℤ),
      txs ≠ [] → 0 ≤ tx.amount →
      (calculateServiceReputation txs flags now).reputationScore
        ≤ (calculateServiceReputation (tx :: txs) flags now).reputationScore) ∧
    (∀ (txs : List Tx) (flags : List FraudFlag) (f : FraudFlag) (now : ℤ),
      (calculateServiceReputation txs (f :: flags) now).reputationScore
        ≤ (calculateServiceReputation txs flags now).reputationScore) := by
  constructor
  · intro txs tx flags now hne hamt
    have hlen : ¬ txs.length = 0 := by simpa [List.length_eq_zero] using hne
    have hlen' : ¬ (tx :: txs).length = 0 := by simp
    simp only [calculateServiceReputation, hlen, hlen', if_false]
    exact scoreOf_le_cons_tx txs tx flags now hne hamt
  · intro txs flags f now
    by_cases hlen : txs.length = 0
    · simp [calculateServiceReputation, hlen]
    · simp only [calculateServiceReputation, hlen, if_false]
      unfold scoreOf
      apply clampRound_mono
      exact rawScore_mono le_rfl le_rfl le_rfl le_rfl le_rfl
        (fraudPenalty_activeFlags_cons f flags)

/-- C5 counterexample: the claim as stated fails at the empty-history
boundary.  The empty history scores the neutral default 50; adding one
transaction (count 0→1, volume 0→1000, payers 0→1) drops the score to 31. -/
theorem serviceReputation_monotone_cex :
    (calculateServiceReputation
        [⟨"h1", "agent1", "svc1", 1000, 1000000⟩] [] 1000000).reputationScore
      < (calculateServiceReputation [] [] 1000000).reputationScore := by
  have h1 : (calculateServiceReputation
      [⟨"h1", "agent1", "svc1", 1000, 1000000⟩] [] 1000000).reputationScore
      = scoreOf [⟨"h1", "agent1", "svc1", 1000, 1000000⟩] [] 1000000 := rfl
  have h2 : scoreOf [⟨"h1", "agent1", "svc1", 1000, 1000000⟩] [] 1000000 = 31 := by
    simp only [scoreOf, rawScore, sumVolume, uniquePayersCount, minTs, maxTs,
      activeFlags, fraudPenalty, activityScore, clampRound, jsRound,
      config.minScore, config.maxScore,
      List.map_cons, List.map_nil, List.sum_cons, List.sum_nil, List.length_cons,
      List.length_nil, List.filter_nil,
      List.dedup_cons_of_not_mem (List.not_mem_nil _), List.dedup_nil]
    norm_num
  have h3 : (calculateServiceReputation [] [] 1000000).reputationScore = 50 := rfl
  rw [h1, h2, h3]
  norm_num

/-- Closed witness for `serviceReputation_monotone`: a concrete nonempty
history whose score does not decrease when a transaction is added. -/
theorem serviceReputation_monotone_witness :
    (([⟨"h1", "a", "s", 10, 500⟩] : List Tx) ≠ [] ∧
      (0 : ℚ) ≤ (Tx.mk "h2" "b" "s" 2 600).amount) ∧
    (calculateServiceReputation [⟨"h1", "a", "s", 10, 500⟩] [] 1000).reputationScore
      ≤ (calculateServiceReputation
          (⟨"h2", "b", "s", 2, 600⟩ :: [⟨"h1", "a", "s", 10, 500⟩]) [] 1000).reputationScore :=
  ⟨⟨by decide, by norm_num⟩,
    serviceReputation_monotone.1 [⟨"h1", "a", "s", 10, 500⟩] ⟨"h2", "b", "s", 2, 600⟩
      [] 1000 (by decide) (by norm_num)⟩

/-- C3: the compatibility assessment is mean minus the two penalties,
clamped; recommended iff the clamped score is ≥ 60 with no active flag;
risk high iff score < 40 or flags present, else medium iff < 60, else
low; at serviceScore 85 / agentScore 20 / no flags the score is 42.5
before rounding, not recommended, risk medium. -/
theorem checkTrustCompatibility_spec :
    (∀ (s a : ℤ) (fl : List FraudFlag),
      compatibilityQ s a fl
          = max 0 (min 100 (((s : ℚ) + (a : ℚ)) / 2
              - (if 30 < |s - a| then 10 else 0)
              - (if activeFlags fl = [] then 0 else 20))) ∧
      ((checkTrustCompatibility s a fl).recommended = true ↔
        (60 ≤ compatibilityQ s a fl ∧ activeFlags fl = [])) ∧
      (checkTrustCompatibility s a fl).riskLevel
          = (if compatibilityQ s a fl < 40 ∨ activeFlags fl ≠ [] then .high
             else if compatibilityQ s a fl < 60 then .medium
             else RiskLevel.low)) ∧
    (compatibilityQ 85 20 [] = 85 / 2 ∧
      (checkTrustCompatibility 85 20 []).recommended = false ∧
      (checkTrustCompatibility 85 20 []).riskLevel = .medium) := by
  have hQ : ∀ (s a : ℤ) (fl : List FraudFlag),
      compatibilityQ s a fl
        = max 0 (min 100 (((s : ℚ) + (a : ℚ)) / 2
            - (if 30 < |s - a| then 10 else 0)
            - (if activeFlags fl = [] then 0 else 20))) := by
    intro s a fl
    unfold compatibilityQ
    by_cases hf : activeFlags fl = [] <;>
      by_cases hd : 30 < |s - a| <;>
        simp [hf, hd, List.isEmpty_iff]
  constructor
  · intro s a fl
    refine ⟨hQ s a fl, ?_, ?_⟩
    · unfold checkTrustCompatibility
      by_cases hf : activeFlags fl = [] <;>
        simp [hf, List.isEmpty_iff, decide_eq_true_iff]
    · unfold checkTrustCompatibility
      by_cases hf : activeFlags fl = []
      · simp [hf, List.isEmpty_iff]
      · simp [hf, List.isEmpty_iff]
  · have h1 : compatibilityQ 85 20 [] = 85 / 2 := by
      rw [hQ]
      simp only [activeFlags, List.filter_nil, if_pos rfl]
      norm_num
    refine ⟨h1, ?_, ?_⟩
    · unfold checkTrustCompatibility
      simp only [h1, activeFlags, List.filter_nil, List.isEmpty_nil,
        Bool.not_false, Bool.not_true, Bool.and_false]
      rw [decide_eq_false (by norm_num : ¬ (60 : ℚ) ≤ 85 / 2)]
      rfl
    · unfold checkTrustCompatibility
      simp only [h1, activeFlags, List.filter_nil, List.isEmpty_nil]
      rw [if_neg, if_pos (by norm_num : (85 : ℚ) / 2 < 60)]
      rw [not_or]
      exact ⟨by norm_num, by simp⟩

/-- C10: the recommendation and the risk level coincide — a pair is
recommended exactly when its risk level is low. -/
theorem recommended_iff_risk_low (s a : ℤ) (fl : List FraudFlag) :
    (checkTrustCompatibility s a fl).recommended = true ↔
    (checkTrustCompatibility s a fl).riskLevel = RiskLevel.low := by
  unfold checkTrustCompatibility
  by_cases hf : activeFlags fl = []
  · by_cases h40 : compatibilityQ s a fl < 40
    · have h60 : ¬ (60 : ℚ) ≤ compatibilityQ s a fl := by linarith
      simp [hf, h40, h60, List.isEmpty_iff]
    · by_cases h60 : compatibilityQ s a fl < 60
      · have h60' : ¬ (60 : ℚ) ≤ compatibilityQ s a fl := by linarith
        simp [hf, h40, h60, h60', List.isEmpty_iff]
      · have h60' : (60 : ℚ) ≤ compatibilityQ s a fl := by linarith
        simp [hf, h40, h60, h60', List.isEmpty_iff]
  · simp [hf, List.isEmpty_iff]

/-! ## Theorems: ingestion, aggregator, detectors -/

/-- C4: ingestion is idempotent.  Inserting a transaction with an
already-stored hash leaves the store itself, hence its row count and every
downstream aggregate (reputation, pattern analysis), unchanged. -/
theorem saveTransaction_idempotent (store : List Tx) (tx tx' : Tx)
    (hhash : tx'.tx_hash = tx.tx_hash) :
    saveTransaction (saveTransaction store tx) tx' = saveTransaction store tx ∧
    (saveTransaction (saveTransaction store tx) tx').length
      = (saveTransaction store tx).length ∧
    (∀ (addr : String) (flags : List FraudFlag) (now : ℤ),
      calculateServiceReputation
          (txsTo (saveTransaction (saveTransaction store tx) tx') addr) flags now
        = calculateServiceReputation
          (txsTo (saveTransaction store tx) addr) flags now) ∧
    (∀ (addr : String) (now : ℤ),
      analyzeFraudPatterns
          (txsTo (saveTransaction (saveTransaction store tx) tx') addr) now
        = analyzeFraudPatterns (txsTo (saveTransaction store tx) addr) now) := by
  have hkey : saveTransaction (saveTransaction store tx) tx'
      = saveTransaction store tx := by
    unfold saveTransaction
    by_cases h : store.any (fun t => t.tx_hash = tx.tx_hash)
    · simp [h, hhash]
    · simp [h, hhash, List.any_append]
  exact ⟨hkey, by rw [hkey], fun addr flags now => by rw [hkey],
    fun addr now => by rw [hkey]⟩

/-- Closed witness for `saveTransaction_idempotent`: replaying the very
same hash into an initially empty store keeps exactly one row. -/
theorem saveTransaction_idempotent_witness :
    (Tx.mk "0xabc" "agent" "svc" 7 50).tx_hash
        = (Tx.mk "0xabc" "agent" "svc" 5 100).tx_hash ∧
    saveTransaction (saveTransaction [] ⟨"0xabc", "agent", "svc", 5, 100⟩)
        ⟨"0xabc", "agent", "svc", 7, 50⟩
      = saveTransaction [] ⟨"0xabc", "agent", "svc", 5, 100⟩ :=
  ⟨rfl, (saveTransaction_idempotent [] ⟨"0xabc", "agent", "svc", 5, 100⟩
    ⟨"0xabc", "agent", "svc", 7, 50⟩ rfl).1⟩

/-- C6 (the spec's isolation requirement fails on the code):
`checkServiceForFraud` contains no try/catch, so a throwing detector
aborts the whole evaluation — the sibling detector's positive finding is
lost — and a failing `saveFraudFlag` aborts the persistence loop before
the subsequent flag is attempted. -/
theorem checkServiceForFraud_no_isolation :
    (checkServiceForFraud
        [Except.error "detector boom", Except.ok ⟨"wash_trading", 9, true⟩]
        (fun _ => Except.ok ())
      = Except.error "detector boom") ∧
    (checkServiceForFraud
        [Except.ok ⟨"velocity_abuse", 8, true⟩, Except.ok ⟨"wash_trading", 9, true⟩]
        (fun f => if f.ftype = "velocity_abuse" then Except.error "db write failed"
                  else Except.ok ())
      = Except.error "db write failed") :=
  ⟨rfl, rfl⟩

theorem dedup_replicate_append {α : Type} [DecidableEq α] {a : α}
    {l : List α} (n : ℕ) (h : a ∉ l) :
    (List.replicate (n + 1) a ++ l).dedup = a :: l.dedup := by
  induction n with
  | zero => simpa using List.dedup_cons_of_not_mem h
  | succ n ih =>
    rw [List.replicate_succ, List.cons_append, List.dedup_cons_of_mem, ih]
    simp [List.mem_append, List.mem_replicate]

theorem dedup_replicate {α : Type} [DecidableEq α] (a : α) (n : ℕ) :
    (List.replicate (n + 1) a).dedup = [a] := by
  induction n with
  | zero => simp
  | succ n ih =>
    rw [List.replicate_succ, List.dedup_cons_of_mem (by simp [List.mem_replicate]), ih]

theorem payerTxs_washScenario :
    payerTxs washScenario "payer1"
      = List.replicate 50 ⟨"", "payer1", "svc", 10, 0⟩ := by
  simp [payerTxs, washScenario, List.filter_append, List.filter_replicate]

/-- C7: the circular-flow detector fires exactly when some payer has at
least 10 payments of exactly one distinct amount; the wash-trading
scenario (150 payments, 3 payers, all exactly 10.00) triggers it. -/
theorem checkCircularFlow_spec :
    (∀ txs : List Tx,
      (checkCircularFlow txs).detected = true ↔
        ∃ payer, 10 ≤ (payerTxs txs payer).length ∧
          ((payerTxs txs payer).map (·.amount)).dedup.length = 1) ∧
    (washScenario.length = 150 ∧ uniquePayersCount washScenario = 3 ∧
      (checkCircularFlow washScenario).detected = true) := by
  have hiff : ∀ txs : List Tx,
      (checkCircularFlow txs).detected = true ↔
        ∃ payer, 10 ≤ (payerTxs txs payer).length ∧
          ((payerTxs txs payer).map (·.amount)).dedup.length = 1 := by
    intro txs
    unfold checkCircularFlow
    simp only [List.any_eq_true, Bool.and_eq_true, decide_eq_true_eq]
    constructor
    · rintro ⟨t, _, h10, h1⟩
      exact ⟨t.from_address, h10, h1⟩
    · rintro ⟨payer, h10, h1⟩
      have hne : payerTxs txs payer ≠ [] := by
        intro he
        rw [he] at h10
        simp at h10
      obtain ⟨t, ht⟩ := List.exists_mem_of_ne_nil _ hne
      have htx : t ∈ txs ∧ t.from_address = payer := by
        have := List.mem_filter.mp ht
        exact ⟨this.1, by simpa using this.2⟩
      refine ⟨t, htx.1, ?_, ?_⟩ <;> rw [htx.2] <;> assumption
  refine ⟨hiff, ?_, ?_, ?_⟩
  · simp [washScenario]
  · have h1 : ("payer1" : String) ∉
        (List.replicate 50 "payer2" ++ List.replicate 50 "payer3" : List String) := by
      simp [List.mem_append, List.mem_replicate]
    have h2 : ("payer2" : String) ∉ (List.replicate 50 "payer3" : List String) := by
      simp [List.mem_replicate]
    have h3 : ("payer3" : String) ∉ ([] : List String) := by simp
    unfold uniquePayersCount washScenario
    rw [List.map_append, List.map_append]
    simp only [List.map_replicate]
    rw [List.append_assoc]
    rw [show (50 : ℕ) = 49 + 1 from rfl]
    rw [dedup_replicate_append 49 h1]
    rw [dedup_replicate_append 49 h2]
    rw [dedup_replicate "payer3" 49]
    rfl
  · rw [hiff]
    refine ⟨"payer1", ?_, ?_⟩
    · rw [payerTxs_washScenario]; simp
    · rw [payerTxs_washScenario, List.map_replicate]
      rw [show (50 : ℕ) = 49 + 1 from rfl]
      rw [dedup_replicate]
      rfl

theorem mem_insertBySevDesc {a x : PatternEntry} :
    ∀ {l : List PatternEntry}, a ∈ insertBySevDesc x l ↔ a = x ∨ a ∈ l := by
  intro l
  induction l with
  | nil => simp [insertBySevDesc]
  | cons y ys ih =>
    unfold insertBySevDesc
    split
    · simp
    · simp only [List.mem_cons, ih]
      tauto

theorem mem_sortBySevDesc {a : PatternEntry} :
    ∀ {l : List PatternEntry}, a ∈ sortBySevDesc l ↔ a ∈ l := by
  intro l
  induction l with
  | nil => simp [sortBySevDesc]
  | cons y ys ih =>
    unfold sortBySevDesc
    rw [mem_insertBySevDesc]
    simp [ih]

theorem ite_some_of_eq {α : Type} {c : Prop} [Decidable c] {o : Option α} {e : α}
    (h : (if c then o else none) = some e) : o = some e := by
  split at h
  · exact h
  · exact Option.noConfusion h

theorem identicalAmountsPattern_ptype {txs : List Tx} {e : PatternEntry}
    (h : identicalAmountsPattern txs = some e) : e.ptype = .IDENTICAL_AMOUNTS := by
  unfold identicalAmountsPattern at h
  split at h
  · cases h; rfl
  · exact Option.noConfusion h

theorem lowPayerDiversityPattern_ptype {txs : List Tx} {e : PatternEntry}
    (h : lowPayerDiversityPattern txs = some e) : e.ptype = .LOW_PAYER_DIVERSITY := by
  unfold lowPayerDiversityPattern at h
  dsimp only at h
  split at h
  · cases h; rfl
  · exact Option.noConfusion h

theorem newWalletPattern_ptype {txs : List Tx} {now : ℤ} {e : PatternEntry}
    (h : newWalletPattern txs now = some e) : e.ptype = .NEW_WALLET_RISK := by
  unfold newWalletPattern at h
  dsimp only at h
  split at h
  · cases h; rfl
  · exact Option.noConfusion h

theorem volumeSpikePattern_ptype {txs : List Tx} {e : PatternEntry}
    (h : volumeSpikePattern txs = some e) : e.ptype = .VOLUME_SPIKE := by
  unfold volumeSpikePattern at h
  dsimp only at h
  injection ite_some_of_eq (ite_some_of_eq h) with h2
  subst h2
  rfl

theorem washTradingPattern_ptype {txs : List Tx} {e : PatternEntry}
    (h : washTradingPattern txs = some e) : e.ptype = .WASH_TRADING := by
  unfold washTradingPattern at h
  dsimp only at h
  injection ite_some_of_eq h with h2
  subst h2
  rfl

theorem timeClusteringPattern_ptype {txs : List Tx} {e : PatternEntry}
    (h : timeClusteringPattern txs = some e) : e.ptype = .TIME_CLUSTERING := by
  unfold timeClusteringPattern at h
  dsimp only at h
  injection ite_some_of_eq (ite_some_of_eq h) with h2
  subst h2
  rfl

theorem velocityPattern_eq_some_iff {txs : List Tx} {now s : ℤ} :
    velocityPattern txs now = some ⟨.VELOCITY_ABUSE, s⟩ ↔
      (50 < (txs.filter (fun t => now - 3600 < t.timestamp)).length ∧
        s = min 10 (((txs.filter (fun t => now - 3600 < t.timestamp)).length : ℤ) / 10)) := by
  unfold velocityPattern
  dsimp only
  split
  · rename_i h
    constructor
    · intro hx
      injection hx with hx'
      exact ⟨h, (congrArg PatternEntry.severity hx').symm⟩
    · intro hx
      rw [hx.2]
  · rename_i h
    constructor
    · intro hx
      exact Option.noConfusion hx
    · intro hx
      exact absurd hx.1 h

/-- C8: the extended analyzer emits a velocity-abuse pattern exactly when
more than 50 transactions fall in the trailing hour, and its severity is
`min(10, ⌊count/10⌋)`. -/
theorem velocityAbuse_extended_spec (txs : List Tx) (now s : ℤ) :
    (⟨.VELOCITY_ABUSE, s⟩ : PatternEntry) ∈ (analyzeFraudPatterns txs now).patterns ↔
      (50 < (txs.filter (fun t => now - 3600 < t.timestamp)).length ∧
        s = min 10 (((txs.filter (fun t => now - 3600 < t.timestamp)).length : ℤ) / 10)) := by
  by_cases h0 : txs.length = 0
  · obtain rfl : txs = [] := List.length_eq_zero.mp h0
    simp [analyzeFraudPatterns]
  · simp only [analyzeFraudPatterns, h0, if_false]
    rw [mem_sortBySevDesc]
    constructor
    · intro hmem
      rw [List.mem_filterMap] at hmem
      obtain ⟨o, ho, hoe⟩ := hmem
      simp only [id_eq] at hoe
      simp only [List.mem_cons, List.not_mem_nil, or_false] at ho
      rcases ho with rfl | rfl | rfl | rfl | rfl | rfl | rfl
      · exact velocityPattern_eq_some_iff.mp hoe
      · have := identicalAmountsPattern_ptype hoe; simp at this
      · have := lowPayerDiversityPattern_ptype hoe; simp at this
      · have := newWalletPattern_ptype hoe; simp at this
      · have := volumeSpikePattern_ptype hoe; simp at this
      · have := washTradingPattern_ptype hoe; simp at this
      · have := timeClusteringPattern_ptype hoe; simp at this
    · intro hcond
      rw [List.mem_filterMap]
      exact ⟨velocityPattern txs now, by simp,
        by simpa using velocityPattern_eq_some_iff.mpr hcond⟩

/-- C9: the empty transaction history is "not fireable" everywhere — the
extended analyzer takes its early return with no patterns and low risk,
and each (spec-modelled) basic rule reports `detected = false`; nothing
errors. -/
theorem empty_history_not_fireable (now : ℤ) :
    analyzeFraudPatterns [] now
        = { patterns := [], totalPatterns := 0, riskLevel := .low } ∧
    (checkVelocityAbuse [] now).detected = false ∧
    (checkNewWalletRisk [] now).detected = false ∧
    (checkCircularFlow []).detected = false ∧
    (checkVolumeSpike []).detected = false ∧
    (checkRetrySpam [] now).detected = false :=
  ⟨rfl, rfl, rfl, rfl, rfl, rfl⟩

end TrustScore
